import Mathlib

/-!
Shallow embedding of `src/views/system_info.py` (StratuxHUD diagnostics view).

Numbers are modelled by `ℚ` (the Python code uses machine floats only for
temperature arithmetic and color blending, where the claims under study are
robust to the representation).  Python tuples of RGB channels become the
`Color` structure; Python exceptions at a probe boundary become `Option` /
`Except` values in the environment that the pure embedding matches on.

Helper modules of the repository that are not under `src/`
(`lib.display` color constants, `lib.colors` mixing helpers, the `aithre`
module constants) are modelled from the spec; each such definition is marked
with a doc comment starting with the words "Modelled from the spec".
-/

/-- Modelled from the spec: `lib.display` is not under `src/`.  Colors are
RGB channel triples; channels are rationals so that the channel-wise linear
interpolation of the spec is exact. -/
structure Color where
  r : ℚ
  g : ℚ
  b : ℚ
deriving DecidableEq, Repr

/-- Modelled from the spec: the conventional red of `lib.display`. -/
def RED : Color := ⟨255, 0, 0⟩

/-- Modelled from the spec: the conventional green of `lib.display`. -/
def GREEN : Color := ⟨0, 255, 0⟩

/-- Modelled from the spec: the conventional blue of `lib.display`. -/
def BLUE : Color := ⟨0, 0, 255⟩

/-- Modelled from the spec: the conventional yellow of `lib.display`. -/
def YELLOW : Color := ⟨255, 255, 0⟩

/-- Modelled from the spec: the conventional gray of `lib.display`. -/
def GRAY : Color := ⟨128, 128, 128⟩

/-- Modelled from the spec: the conventional black of `lib.display`. -/
def BLACK : Color := ⟨0, 0, 0⟩

/-- Modelled from the spec: `lib.colors.clamp(minimum, value, maximum)`;
the spec requires the proportion "clamped to [0,1] before use". -/
def clamp (minimum value maximum : ℚ) : ℚ :=
  if value < minimum then minimum
  else if value > maximum then maximum
  else value

/-- Modelled from the spec: `lib.colors.get_color_mix`; the spec requires
"linearly interpolate the color channel-wise" from the left color to the
right color by the given proportion. -/
def get_color_mix (left_color right_color : Color) (proportion : ℚ) : Color :=
  ⟨left_color.r + (right_color.r - left_color.r) * proportion,
   left_color.g + (right_color.g - left_color.g) * proportion,
   left_color.b + (right_color.b - left_color.b) * proportion⟩

def NORMAL_TEMP : ℚ := 50

def REDLINE_TEMP : ℚ := 80

/-- Embedding of `get_cpu_temp_text_color` (system_info.py lines 45-57). -/
def get_cpu_temp_text_color (temperature : ℚ) : Color :=
  if temperature > REDLINE_TEMP then RED
  else if temperature > NORMAL_TEMP then
    let delta := temperature - NORMAL_TEMP
    let temp_range := REDLINE_TEMP - NORMAL_TEMP
    let delta2 := clamp 0 delta temp_range
    let proportion := delta2 / temp_range
    get_color_mix GREEN RED proportion
  else GREEN

/-- A battery reading from the Aithre sensor is either a number or a status
string (the Python code checks `isinstance(battery, basestring)`). -/
inductive BatteryVal where
  | num (q : ℚ)
  | txt (s : String)
deriving DecidableEq, Repr

/-- A CO reading from the Aithre sensor is either a numeric PPM value or a
status string. -/
inductive CoVal where
  | num (q : ℚ)
  | txt (s : String)
deriving DecidableEq, Repr

/-- Embedding of the Aithre sensor handle: each getter either raises
(`Except.error`) or returns a possibly absent reading. -/
structure AithreSensor where
  get_battery : Except Unit (Option BatteryVal)
  get_co_level : Except Unit (Option CoVal)

/-- Environment of the module: platform flags, outcomes of the external
calls a probe makes (none = the call raises), the global Aithre handle and
the configuration values read by the view.  All external nondeterminism is
a field here, so every embedded function is total and pure. -/
structure Env where
  isLinux : Bool
  isPi : Bool
  hostnameOutput : Option String
  gethostbyname : Option String
  thermalRead : Option ℚ
  aithre_sensor : Option AithreSensor
  aithre_enabled : Bool
  version : String
  declination : String
  traffic_address : String
  ownship : String
  fbWidth : Nat
  fbHeight : Nat

/-- Embedding of `get_ip_address` (system_info.py lines 26-42): the bare
`except:` clause means every failure in either branch yields
`('UNKNOWN', RED)`. -/
def get_ip_address (env : Env) : String × Color :=
  if env.isLinux && env.isPi then
    match env.hostnameOutput with
    | some out => (out.trim, GREEN)
    | none => ("UNKNOWN", RED)
  else
    match env.gethostbyname with
    | some host => (host, GREEN)
    | none => ("UNKNOWN", RED)

/-- Embedding of `get_cpu_temp` (system_info.py lines 60-82): on Linux the
thermal zone file is read and scaled by 1000; any failure, and every
non-Linux run, yields `('---', GRAY)`. -/
def get_cpu_temp (env : Env) : String × Color :=
  if env.isLinux then
    match env.thermalRead with
    | some raw =>
      let temp := raw / 1000
      (toString ⌊temp⌋ ++ "C", get_cpu_temp_text_color temp)
    | none => ("---", GRAY)
  else ("---", GRAY)

/-- Modelled from the spec: the `aithre` module is not under `src/`.  The
spec's scenario uses a CO safe cut point of 400 ppm. -/
def CO_SAFE : ℚ := 400

/-- Modelled from the spec: the spec's scenario uses a CO danger cut point
of 700 ppm. -/
def CO_WARNING : ℚ := 700

/-- Modelled from the spec: battery cut points are "two cut points
partition the domain into three bands" with inverted direction; the
concrete values are not given, 75 is used for the safe bound. -/
def BATTERY_SAFE : ℚ := 75

/-- Modelled from the spec: the caution bound of the battery bands. -/
def BATTERY_WARNING : ℚ := 25

/-- Python 2 semantics of `co_ppm > threshold`: a string compares greater
than every number, so a textual reading lands in the top band. -/
def CoVal.gt (c : CoVal) (threshold : ℚ) : Bool :=
  match c with
  | .num q => threshold < q
  | .txt _ => true

/-- Embedding of `get_aithre_co_color` (system_info.py lines 85-102). -/
def get_aithre_co_color (co_ppm : CoVal) : Color :=
  if co_ppm.gt CO_WARNING then RED
  else if co_ppm.gt CO_SAFE then YELLOW
  else BLUE

/-- Python 2 semantics of `battery_percent >= threshold`: a string compares
greater than every number. -/
def BatteryVal.ge (bv : BatteryVal) (threshold : ℚ) : Bool :=
  match bv with
  | .num q => threshold ≤ q
  | .txt _ => true

/-- Embedding of `get_aithre_battery_color` (system_info.py lines 105-122). -/
def get_aithre_battery_color (battery_percent : BatteryVal) : Color :=
  if battery_percent.ge BATTERY_SAFE then GREEN
  else if battery_percent.ge BATTERY_WARNING then YELLOW
  else RED

/-- Display text of a battery reading, as `'bat:{}{}'.format(...)` builds
it (the `%` suffix is dropped for textual readings). -/
def batteryText (bv : BatteryVal) : String :=
  match bv with
  | .num q => "bat:" ++ toString q ++ "%"
  | .txt s => "bat:" ++ s

/-- Display text of a CO reading, as `'co:{}ppm'.format(...)` builds it. -/
def coText (c : CoVal) : String :=
  match c with
  | .num q => "co:" ++ toString q ++ "ppm"
  | .txt s => "co:" ++ s ++ "ppm"

/-- The battery part of `__get_aithre_text_and_color__` (lines 160-172):
default `('UNK', RED)`, `('ERR', RED)` when the getter raises, and the
formatted reading with its band color when a reading is present. -/
def aithreBatterySample (sensor : AithreSensor) : String × Color :=
  match sensor.get_battery with
  | .error _ => ("ERR", RED)
  | .ok none => ("UNK", RED)
  | .ok (some bv) => (batteryText bv, get_aithre_battery_color bv)

/-- The CO part of `__get_aithre_text_and_color__` (lines 174-184). -/
def aithreCoSample (sensor : AithreSensor) : String × Color :=
  match sensor.get_co_level with
  | .error _ => ("ERR", RED)
  | .ok none => ("UNK", RED)
  | .ok (some cv) => (coText cv, get_aithre_co_color cv)

/-- The combination expression of `__get_aithre_text_and_color__`
(lines 186-187).  The Python code compares the color constants with `is`;
since the component colors can only be the interned constant tuples, `is`
coincides with value equality here. -/
def combineAithreColor (battery_color co_color : Color) : Color :=
  if co_color = RED ∨ battery_color = RED then RED
  else if co_color = YELLOW ∨ battery_color = YELLOW then YELLOW
  else BLUE

/-- Embedding of `SystemInfo.__get_aithre_text_and_color__`
(system_info.py lines 152-189). -/
def getAithreTextAndColor (env : Env) : String × Color :=
  match env.aithre_sensor with
  | none =>
    if env.aithre_enabled then ("DISCONNECTED", RED) else ("DISABLED", BLUE)
  | some sensor =>
    let bat := aithreBatterySample sensor
    let co := aithreCoSample sensor
    (co.1 ++ " " ++ bat.1, combineAithreColor bat.2 co.2)

/-- Mutable state of a `SystemInfo` element: the two countdown timers and
the two cached samples.  `__cpu_temp__` is an `Option` because the
constructor stores Python `None` there. -/
structure SIState where
  update_ip_timer : Int
  update_temp_timer : Int
  ip_address : String × Color
  cpu_temp : Option (String × Color)
deriving Repr

/-- Embedding of `SystemInfo.__init__` (system_info.py lines 136-150):
both timers start at 0, the IP address is probed synchronously, and the
CPU-temperature cache is set to `None`. -/
def SystemInfo.init (env : Env) : SIState :=
  { update_ip_timer := 0
    update_temp_timer := 0
    ip_address := get_ip_address env
    cpu_temp := none }

/-- One countdown step of the render-loop timer pattern
(`timer -= 1; if timer <= 0: refresh; timer = period`): the new countdown
and whether the probe fired. -/
def tickTimer (countdown period : Int) : Int × Bool :=
  let c := countdown - 1
  if c ≤ 0 then (period, true) else (c, false)

/-- A status row: label, value text, value color. -/
abbrev InfoLine := String × String × Color

def ipLabel : String := "IP          : "

/-- Character-level split at every single space, the semantics of Python's
`text.split(' ')`. -/
def splitSpacesAux : List Char → List Char → List (List Char)
  | [], acc => [acc.reverse]
  | c :: rest, acc =>
    if c = ' ' then acc.reverse :: splitSpacesAux rest []
    else splitSpacesAux rest (c :: acc)

/-- The IP rows of `render` (system_info.py lines 209-212): one row per
space-separated address, each with the fixed label and the cached sample's
color. -/
def ipRows (sample : String × Color) : List InfoLine :=
  (splitSpacesAux sample.1.data []).map (fun a => (ipLabel, String.mk a, sample.2))

/-- The ordered row list `render` builds (system_info.py lines 204-224),
given the already-refreshed samples. -/
def buildRows (env : Env) (ip : String × Color) (cpu : String × Color) : List InfoLine :=
  [("VERSION     : ", env.version, YELLOW),
   ("DECLINATION : ", env.declination, BLUE),
   ("TRAFFIC     : ", env.traffic_address, BLUE)]
  ++ ipRows ip
  ++ [("AITHRE      : ", (getAithreTextAndColor env).1, (getAithreTextAndColor env).2),
      ("HUD CPU     : ", cpu.1, cpu.2),
      ("OWNSHIP     : ", env.ownship, BLUE),
      ("DISPLAY RES : ", toString env.fbWidth ++ " x " ++ toString env.fbHeight, BLUE)]

/-- Embedding of `SystemInfo.render` (system_info.py lines 191-241): both
timers are decremented, an expired timer re-probes its metric and resets,
and the row list is built from the (possibly refreshed) caches.  The row
list is `none` exactly when the CPU cache still holds Python `None` at
row-build time, where the Python code would raise. -/
def SystemInfo.renderStep (env : Env) (s : SIState) : SIState × Option (List InfoLine) :=
  let ipTick := tickTimer s.update_ip_timer 120
  let ip := if ipTick.2 then get_ip_address env else s.ip_address
  let tempTick := tickTimer s.update_temp_timer 60
  let cpu := if tempTick.2 then some (get_cpu_temp env) else s.cpu_temp
  let s2 : SIState :=
    { update_ip_timer := ipTick.1
      update_temp_timer := tempTick.1
      ip_address := ip
      cpu_temp := cpu }
  (s2, cpu.map (fun c => buildRows env ip c))

/-- Countdown after iterating `tickTimer` with period `period`, starting
from `start`. -/
def timerAfter (period start : Int) : Nat → Int
  | 0 => start
  | n + 1 => (tickTimer (timerAfter period start n) period).1

/-- Number of probe firings during the first `n` ticks of the timer. -/
def timerFires (period start : Int) : Nat → Nat
  | 0 => 0
  | n + 1 =>
    timerFires period start n +
      (if (tickTimer (timerAfter period start n) period).2 then 1 else 0)

/-- State of `SystemInfo` after `n` calls to `render`. -/
def siIter (env : Env) (s : SIState) : Nat → SIState
  | 0 => s
  | n + 1 => (SystemInfo.renderStep env (siIter env s n)).1

/-- Mutable state of an `Aithre` element (system_info.py line 252). -/
structure AithreState where
  has_been_connected : Bool
deriving DecidableEq, Repr

/-- Embedding of `Aithre.__init__`: the connection flag starts `False`. -/
def Aithre.init : AithreState := ⟨false⟩

/-- Per-frame inputs of `Aithre.render`: whether the global sensor handle
is present, the feature flag, and the CO reading the sensor returns. -/
structure AithreFrame where
  sensorPresent : Bool
  enabled : Bool
  co_level : Option CoVal

/-- Python's `int()` truncation toward zero, on rationals. -/
def pyInt (q : ℚ) : Int :=
  if 0 ≤ q then ⌊q⌋ else -⌊-q⌋

/-- Embedding of `Aithre.render` (system_info.py lines 254-277): returns
the new state and what is drawn (`none` = nothing blitted). -/
def Aithre.renderStep (f : AithreFrame) (s : AithreState) :
    AithreState × Option (String × Color) :=
  if f.sensorPresent && f.enabled then
    match f.co_level with
    | some (.num q) =>
      (⟨true⟩, some (toString (pyInt q) ++ " PPM", get_aithre_co_color (.num q)))
    | some (.txt _) =>
      if s.has_been_connected then (s, some ("OFFLINE", RED)) else (s, none)
    | none =>
      if s.has_been_connected then (s, some ("OFFLINE", RED)) else (s, none)
  else (s, none)

/-- State of an `Aithre` element after rendering a list of frames. -/
def Aithre.run (s : AithreState) : List AithreFrame → AithreState
  | [] => s
  | f :: rest => Aithre.run (Aithre.renderStep f s).1 rest

/-- A frame carries a successful numeric CO reading while the sensor is
present and enabled (the only situation in which `__has_been_connected__`
is assigned `True`). -/
def AithreFrame.numericFire (f : AithreFrame) : Bool :=
  f.sensorPresent && f.enabled &&
    (match f.co_level with
     | some (.num _) => true
     | _ => false)

/-- Severity rank the spec assigns to the alert colors
(DANGER > CAUTION > SAFE). -/
def specSeverity (c : Color) : Nat :=
  if c = RED then 2 else if c = YELLOW then 1 else 0

/-- Color the spec assigns to a combined severity rank. -/
def specColorOfSeverity (n : Nat) : Color :=
  if n = 2 then RED else if n = 1 then YELLOW else BLUE

/-- A concrete environment used by closed instances. -/
def env0 : Env :=
  { isLinux := true
    isPi := true
    hostnameOutput := some "192.168.1.5 10.0.0.7"
    gethostbyname := some "127.0.0.1"
    thermalRead := some 55000
    aithre_sensor := none
    aithre_enabled := false
    version := "1.6"
    declination := "0.0"
    traffic_address := "ws://192.168.10.1/traffic"
    ownship := "F8000/1200"
    fbWidth := 800
    fbHeight := 480 }

/-- Number of IP-probe firings during the first `n` render calls. -/
def ipFires (env : Env) (s : SIState) : Nat → Nat
  | 0 => 0
  | n + 1 =>
    ipFires env s n +
      (if (tickTimer (siIter env s n).update_ip_timer 120).2 then 1 else 0)

/-- Number of CPU-temperature-probe firings during the first `n` render
calls. -/
def tempFires (env : Env) (s : SIState) : Nat → Nat
  | 0 => 0
  | n + 1 =>
    tempFires env s n +
      (if (tickTimer (siIter env s n).update_temp_timer 60).2 then 1 else 0)

/-- Space-separated join of character lists, the shape of an IP sample
text holding several addresses. -/
def joinSpaces : List (List Char) → List Char
  | [] => []
  | [a] => a
  | a :: rest => a ++ ' ' :: joinSpaces rest

/-- A concrete environment whose probes all fail. -/
def envFail : Env :=
  { env0 with
      hostnameOutput := none
      gethostbyname := none
      thermalRead := none }

/-- A concrete non-Linux environment with a readable thermal file. -/
def envNonLinux : Env :=
  { env0 with isLinux := false, thermalRead := some 42000 }

/-- A concrete sensor whose battery getter returns `None` while the CO
getter returns a safe reading. -/
def sensorBatNone : AithreSensor :=
  { get_battery := .ok none
    get_co_level := .ok (some (.num 0)) }

/-- A concrete `SystemInfo` state whose countdowns have just been reset. -/
def sReset : SIState :=
  { update_ip_timer := 120
    update_temp_timer := 60
    ip_address := ("10.0.0.7", GREEN)
    cpu_temp := some ("55C", GREEN) }

/-- A concrete frame with a textual CO reading. -/
def frameTxt : AithreFrame :=
  { sensorPresent := true, enabled := true, co_level := some (.txt "Connecting") }

/-- A concrete frame with the sensor handle absent. -/
def frameAbsent : AithreFrame :=
  { sensorPresent := false, enabled := true, co_level := some (.num 5) }

theorem tickTimer_val (c P : Int) :
    tickTimer c P = if c - 1 ≤ 0 then (P, true) else (c - 1, false) := rfl

theorem timer_before_period (P : Int) :
    ∀ k : Nat, (k : Int) < P →
      timerAfter P P k = P - k ∧ timerFires P P k = 0 := by
  intro k
  induction k with
  | zero => intro _; exact ⟨by simp [timerAfter], rfl⟩
  | succ n ih =>
    intro h
    have hn : (n : Int) < P := by push_cast at h ⊢; omega
    obtain ⟨h1, h2⟩ := ih hn
    have hcond : ¬ (timerAfter P P n - 1 ≤ 0) := by
      rw [h1]; push_cast at h ⊢; omega
    refine ⟨?_, ?_⟩
    · show (tickTimer (timerAfter P P n) P).1 = P - ((n + 1 : Nat) : Int)
      rw [tickTimer_val, if_neg hcond, h1]; push_cast; ring
    · show timerFires P P n + _ = 0
      rw [h2, tickTimer_val, if_neg hcond]; rfl

theorem timer_at_period (P : Int) (hP : 1 ≤ P) :
    timerAfter P P P.toNat = P ∧ timerFires P P P.toNat = 1 := by
  obtain ⟨n, hn⟩ : ∃ n : Nat, P.toNat = n + 1 := ⟨P.toNat - 1, by omega⟩
  have hlt : (n : Int) < P := by omega
  obtain ⟨h1, h2⟩ := timer_before_period P n hlt
  have hcond : timerAfter P P n - 1 ≤ 0 := by rw [h1]; omega
  rw [hn]
  refine ⟨?_, ?_⟩
  · show (tickTimer (timerAfter P P n) P).1 = P
    rw [tickTimer_val, if_pos hcond]
  · show timerFires P P n + _ = 1
    rw [h2, tickTimer_val, if_pos hcond]; rfl

theorem renderStep_ip_timer (env : Env) (s : SIState) :
    (SystemInfo.renderStep env s).1.update_ip_timer =
      (tickTimer s.update_ip_timer 120).1 := rfl

theorem renderStep_temp_timer (env : Env) (s : SIState) :
    (SystemInfo.renderStep env s).1.update_temp_timer =
      (tickTimer s.update_temp_timer 60).1 := rfl

theorem siIter_ip_timer (env : Env) (s : SIState) :
    ∀ n, (siIter env s n).update_ip_timer = timerAfter 120 s.update_ip_timer n
  | 0 => rfl
  | n + 1 => by
    show (SystemInfo.renderStep env (siIter env s n)).1.update_ip_timer = _
    rw [renderStep_ip_timer, siIter_ip_timer env s n]; rfl

theorem siIter_temp_timer (env : Env) (s : SIState) :
    ∀ n, (siIter env s n).update_temp_timer = timerAfter 60 s.update_temp_timer n
  | 0 => rfl
  | n + 1 => by
    show (SystemInfo.renderStep env (siIter env s n)).1.update_temp_timer = _
    rw [renderStep_temp_timer, siIter_temp_timer env s n]; rfl

theorem ipFires_eq (env : Env) (s : SIState) :
    ∀ n, ipFires env s n = timerFires 120 s.update_ip_timer n
  | 0 => rfl
  | n + 1 => by
    show ipFires env s n + _ = timerFires 120 s.update_ip_timer n + _
    rw [ipFires_eq env s n, siIter_ip_timer env s n]

theorem tempFires_eq (env : Env) (s : SIState) :
    ∀ n, tempFires env s n = timerFires 60 s.update_temp_timer n
  | 0 => rfl
  | n + 1 => by
    show tempFires env s n + _ = timerFires 60 s.update_temp_timer n + _
    rw [tempFires_eq env s n, siIter_temp_timer env s n]

theorem splitSpacesAux_append (l : List Char) :
    ∀ (r acc : List Char), ' ' ∉ l →
      splitSpacesAux (l ++ r) acc = splitSpacesAux r (l.reverse ++ acc) := by
  induction l with
  | nil => intro r acc _; simp [splitSpacesAux]
  | cons c rest ih =>
    intro r acc hns
    have hc : ¬ c = ' ' := fun h => hns (h ▸ List.mem_cons_self c rest)
    have hrest : ' ' ∉ rest := fun h => hns (List.mem_cons_of_mem c h)
    show splitSpacesAux (c :: (rest ++ r)) acc = _
    rw [splitSpacesAux, if_neg hc, ih r (c :: acc) hrest]
    simp

theorem splitSpacesAux_joinSpaces :
    ∀ ls : List (List Char), ls ≠ [] → (∀ l ∈ ls, ' ' ∉ l) →
      splitSpacesAux (joinSpaces ls) [] = ls := by
  intro ls
  induction ls with
  | nil => intro h; exact absurd rfl h
  | cons a t ih =>
    intro _ hns
    have ha : ' ' ∉ a := hns a (List.mem_cons_self a t)
    cases t with
    | nil =>
      show splitSpacesAux (joinSpaces [a]) [] = [a]
      have : joinSpaces [a] = a ++ [] := by simp [joinSpaces]
      rw [this, splitSpacesAux_append a [] [] ha]
      simp [splitSpacesAux]
    | cons b t2 =>
      have ht : ∀ l ∈ b :: t2, ' ' ∉ l := fun l hl => hns l (List.mem_cons_of_mem a hl)
      show splitSpacesAux (joinSpaces (a :: b :: t2)) [] = a :: b :: t2
      have hjoin : joinSpaces (a :: b :: t2) = a ++ ' ' :: joinSpaces (b :: t2) := rfl
      rw [hjoin, splitSpacesAux_append a (' ' :: joinSpaces (b :: t2)) [] ha]
      rw [splitSpacesAux, if_pos rfl]
      rw [ih (by simp) ht]
      simp

theorem batteryColor_mem (bv : BatteryVal) :
    get_aithre_battery_color bv = RED ∨ get_aithre_battery_color bv = YELLOW ∨
      get_aithre_battery_color bv = GREEN := by
  unfold get_aithre_battery_color
  split
  · right; right; rfl
  · split
    · right; left; rfl
    · left; rfl

theorem batterySample_mem (sensor : AithreSensor) :
    (aithreBatterySample sensor).2 = RED ∨ (aithreBatterySample sensor).2 = YELLOW ∨
      (aithreBatterySample sensor).2 = GREEN := by
  unfold aithreBatterySample
  rcases sensor.get_battery with e | ob
  · left; rfl
  · rcases ob with _ | bv
    · left; rfl
    · exact batteryColor_mem bv

theorem coColor_mem (cv : CoVal) :
    get_aithre_co_color cv = RED ∨ get_aithre_co_color cv = YELLOW ∨
      get_aithre_co_color cv = BLUE := by
  unfold get_aithre_co_color
  split
  · left; rfl
  · split
    · right; left; rfl
    · right; right; rfl

theorem coSample_mem (sensor : AithreSensor) :
    (aithreCoSample sensor).2 = RED ∨ (aithreCoSample sensor).2 = YELLOW ∨
      (aithreCoSample sensor).2 = BLUE := by
  unfold aithreCoSample
  rcases sensor.get_co_level with e | oc
  · left; rfl
  · rcases oc with _ | cv
    · left; rfl
    · exact coColor_mem cv

theorem combine_eq_spec (bc cc : Color)
    (hb : bc = RED ∨ bc = YELLOW ∨ bc = GREEN)
    (hc : cc = RED ∨ cc = YELLOW ∨ cc = BLUE) :
    combineAithreColor bc cc =
      specColorOfSeverity (max (specSeverity bc) (specSeverity cc)) := by
  rcases hb with h | h | h <;> rcases hc with h2 | h2 | h2 <;> subst h <;> subst h2 <;>
    simp [combineAithreColor, specSeverity, specColorOfSeverity, RED, YELLOW, GREEN, BLUE]

theorem ppm_suffix_ne_offline (s : String) : s ++ " PPM" ≠ "OFFLINE" := by
  intro h
  have hd : s.data ++ (" PPM").data = ("OFFLINE").data := congrArg String.data h
  have hppm : (" PPM").data = [' ', 'P', 'P', 'M'] := rfl
  have hoff : ("OFFLINE").data = ['O', 'F', 'F', 'L', 'I', 'N', 'E'] := rfl
  rw [hppm, hoff] at hd
  have hlen := congrArg List.length hd
  simp at hlen
  obtain ⟨a, b, c, habc⟩ := List.length_eq_three.mp hlen
  rw [habc] at hd
  simp at hd

theorem renderStep_flag (f : AithreFrame) (s : AithreState) :
    (Aithre.renderStep f s).1 = s ∨
      ((Aithre.renderStep f s).1 = ⟨true⟩ ∧ f.numericFire = true) := by
  by_cases hcond : (f.sensorPresent && f.enabled) = true
  · rcases hco : f.co_level with _ | cv
    · by_cases hb : s.has_been_connected = true <;> left <;>
        simp [Aithre.renderStep, hcond, hco, hb]
    · rcases cv with q | t
      · refine Or.inr ⟨?_, ?_⟩
        · simp [Aithre.renderStep, hcond, hco]
        · simp [AithreFrame.numericFire, hco, hcond]
      · by_cases hb : s.has_been_connected = true <;> left <;>
          simp [Aithre.renderStep, hcond, hco, hb]
  · left; simp [Aithre.renderStep, hcond]

theorem renderStep_offline (f : AithreFrame) (s : AithreState)
    (h : (Aithre.renderStep f s).2 = some ("OFFLINE", RED)) :
    s.has_been_connected = true := by
  by_cases hcond : (f.sensorPresent && f.enabled) = true
  · rcases hco : f.co_level with _ | cv
    · by_cases hb : s.has_been_connected = true
      · exact hb
      · simp [Aithre.renderStep, hcond, hco, hb] at h
    · rcases cv with q | t
      · simp [Aithre.renderStep, hcond, hco] at h
        exact absurd h.1 (ppm_suffix_ne_offline (toString (pyInt q)))
      · by_cases hb : s.has_been_connected = true
        · exact hb
        · simp [Aithre.renderStep, hcond, hco, hb] at h
  · simp [Aithre.renderStep, hcond] at h

theorem run_flag_false (frames : List AithreFrame) :
    ∀ s : AithreState, s.has_been_connected = false →
      (∀ g ∈ frames, g.numericFire = false) →
      (Aithre.run s frames).has_been_connected = false := by
  induction frames with
  | nil => intro s hs _; exact hs
  | cons f rest ih =>
    intro s hs hall
    show (Aithre.run (Aithre.renderStep f s).1 rest).has_been_connected = false
    apply ih
    · rcases renderStep_flag f s with h | ⟨h1, h2⟩
      · rw [h]; exact hs
      · rw [hall f (List.mem_cons_self f rest)] at h2; exact absurd h2 (by simp)
    · intro g hg; exact hall g (List.mem_cons_of_mem f hg)

theorem renderStep_silent (f : AithreFrame) (s : AithreState)
    (hs : s.has_been_connected = false)
    (hco : f.co_level = none ∨ ∃ t, f.co_level = some (.txt t)) :
    (Aithre.renderStep f s).2 = none := by
  by_cases hcond : (f.sensorPresent && f.enabled) = true
  · rcases hco with h | ⟨t, h⟩ <;> simp [Aithre.renderStep, hcond, h, hs]
  · simp [Aithre.renderStep, hcond]


theorem gctc_low (t : ℚ) (h : t ≤ 50) : get_cpu_temp_text_color t = GREEN := by
  have h1 : ¬ (t > REDLINE_TEMP) := by unfold REDLINE_TEMP; linarith
  have h2 : ¬ (t > NORMAL_TEMP) := by unfold NORMAL_TEMP; linarith
  unfold get_cpu_temp_text_color
  rw [if_neg h1, if_neg h2]

theorem gctc_mid_eq (t : ℚ) (h1 : 50 < t) (h2 : t < 80) :
    get_cpu_temp_text_color t = get_color_mix GREEN RED ((t - 50) / 30) := by
  have ha : ¬ (t > REDLINE_TEMP) := by unfold REDLINE_TEMP; linarith
  have hb : t > NORMAL_TEMP := by unfold NORMAL_TEMP; linarith
  have hcl : clamp 0 (t - NORMAL_TEMP) (REDLINE_TEMP - NORMAL_TEMP) = t - 50 := by
    unfold clamp NORMAL_TEMP REDLINE_TEMP
    rw [if_neg (by linarith), if_neg (by linarith)]
  unfold get_cpu_temp_text_color
  rw [if_neg ha, if_pos hb]
  show get_color_mix GREEN RED
      (clamp 0 (t - NORMAL_TEMP) (REDLINE_TEMP - NORMAL_TEMP) / (REDLINE_TEMP - NORMAL_TEMP)) = _
  rw [hcl]
  norm_num [NORMAL_TEMP, REDLINE_TEMP]

theorem gctc_high (t : ℚ) (h : 80 ≤ t) : get_cpu_temp_text_color t = RED := by
  rcases eq_or_lt_of_le h with heq | hlt
  · rw [← heq]
    norm_num [get_cpu_temp_text_color, clamp, get_color_mix,
      NORMAL_TEMP, REDLINE_TEMP, RED, GREEN]
  · have h1 : t > REDLINE_TEMP := by unfold REDLINE_TEMP; linarith
    unfold get_cpu_temp_text_color
    rw [if_pos h1]

/-- C1: the combined color computed by `__get_aithre_text_and_color__` is
the maximum severity of the battery color and the CO color under the
ordering RED > YELLOW > BLUE, and in particular (battery=YELLOW, co=safe)
combines to YELLOW, (battery=safe, co=RED) to RED, and
(battery=safe, co=safe) to BLUE. -/
theorem C1_worst_of_rule (env : Env) (s : AithreSensor) (e : Bool) :
    (getAithreTextAndColor
        { env with aithre_sensor := some s, aithre_enabled := e }).2 =
      specColorOfSeverity
        (max (specSeverity (aithreBatterySample s).2)
          (specSeverity (aithreCoSample s).2)) ∧
    combineAithreColor YELLOW BLUE = YELLOW ∧
    combineAithreColor GREEN RED = RED ∧
    combineAithreColor GREEN BLUE = BLUE := by
  refine ⟨?_, ?_, ?_, ?_⟩
  · exact combine_eq_spec _ _ (batterySample_mem s) (coSample_mem s)
  · norm_num [combineAithreColor, RED, YELLOW, BLUE, GREEN]
  · norm_num [combineAithreColor, RED, YELLOW, BLUE, GREEN]
  · norm_num [combineAithreColor, RED, YELLOW, BLUE, GREEN]

/-- C2: `get_cpu_temp_text_color` returns GREEN for all temperatures at or
below `NORMAL_TEMP = 50`, RED for all at or above `REDLINE_TEMP = 80`, and
in between a channel-wise blend strictly between GREEN and RED obtained
from the clamped proportion `(t - 50) / (80 - 50)`; at `t = 65` the
proportion is `1/2` and the color is the exact midpoint blend. -/
theorem C2_cpu_temp_gradient (t : ℚ) :
    (t ≤ NORMAL_TEMP → get_cpu_temp_text_color t = GREEN) ∧
    (REDLINE_TEMP ≤ t → get_cpu_temp_text_color t = RED) ∧
    (NORMAL_TEMP < t → t < REDLINE_TEMP →
      get_cpu_temp_text_color t =
        get_color_mix GREEN RED
          ((t - NORMAL_TEMP) / (REDLINE_TEMP - NORMAL_TEMP)) ∧
      GREEN.r < (get_cpu_temp_text_color t).r ∧
      (get_cpu_temp_text_color t).r < RED.r ∧
      RED.g < (get_cpu_temp_text_color t).g ∧
      (get_cpu_temp_text_color t).g < GREEN.g ∧
      (get_cpu_temp_text_color t).b = GREEN.b) ∧
    get_cpu_temp_text_color 65 = get_color_mix GREEN RED (1 / 2) ∧
    get_color_mix GREEN RED (1 / 2) =
      ⟨(GREEN.r + RED.r) / 2, (GREEN.g + RED.g) / 2, (GREEN.b + RED.b) / 2⟩ := by
  refine ⟨fun h => gctc_low t h, fun h => gctc_high t h, fun h1 h2 => ?_, ?_, ?_⟩
  · have heq := gctc_mid_eq t h1 h2
    have hp1 : 0 < (t - 50) / 30 := div_pos (by unfold NORMAL_TEMP at h1; linarith) (by norm_num)
    have hp2 : (t - 50) / 30 < 1 := by
      rw [div_lt_one (by norm_num)]
      unfold REDLINE_TEMP at h2; linarith
    refine ⟨?_, ?_, ?_, ?_, ?_, ?_⟩
    · rw [heq]; norm_num [NORMAL_TEMP, REDLINE_TEMP]
    · rw [heq]
      show (0 : ℚ) < 0 + (255 - 0) * ((t - 50) / 30)
      linarith
    · rw [heq]
      show (0 : ℚ) + (255 - 0) * ((t - 50) / 30) < 255
      linarith
    · rw [heq]
      show (0 : ℚ) < 255 + (0 - 255) * ((t - 50) / 30)
      linarith
    · rw [heq]
      show (255 : ℚ) + (0 - 255) * ((t - 50) / 30) < 255
      linarith
    · rw [heq]
      show (0 : ℚ) + (0 - 0) * ((t - 50) / 30) = 0
      ring
  · rw [gctc_mid_eq 65 (by norm_num) (by norm_num)]
    norm_num
  · norm_num [get_color_mix, GREEN, RED]

/-- C2 witness: the theorem instantiated at 40, 95 and 65 degrees. -/
theorem C2_witness :
    get_cpu_temp_text_color 40 = GREEN ∧
    get_cpu_temp_text_color 95 = RED ∧
    get_cpu_temp_text_color 65 = get_color_mix GREEN RED (1 / 2) :=
  ⟨(C2_cpu_temp_gradient 40).1 (by norm_num [NORMAL_TEMP]),
   (C2_cpu_temp_gradient 95).2.1 (by norm_num [REDLINE_TEMP]),
   (C2_cpu_temp_gradient 65).2.2.2.1⟩

/-- C3: for each metric timer (period 120 render calls for the IP address,
60 for the CPU temperature), from a state whose countdown has just been
reset to its period P the probe fires exactly once during the next P render
calls, namely on the P-th, never in fewer, and the countdown is then reset
to P again. -/
theorem C3_timer_schedule (env : Env) (s : SIState) :
    (s.update_ip_timer = 120 →
      (∀ k : Nat, k < 120 → ipFires env s k = 0) ∧
      ipFires env s 120 = 1 ∧
      (siIter env s 120).update_ip_timer = 120) ∧
    (s.update_temp_timer = 60 →
      (∀ k : Nat, k < 60 → tempFires env s k = 0) ∧
      tempFires env s 60 = 1 ∧
      (siIter env s 60).update_temp_timer = 60) := by
  constructor
  · intro h
    refine ⟨?_, ?_, ?_⟩
    · intro k hk
      rw [ipFires_eq, h]
      exact (timer_before_period 120 k (by exact_mod_cast hk)).2
    · rw [ipFires_eq, h]
      have h2 := (timer_at_period 120 (by norm_num)).2
      simpa using h2
    · rw [siIter_ip_timer, h]
      have h2 := (timer_at_period 120 (by norm_num)).1
      simpa using h2
  · intro h
    refine ⟨?_, ?_, ?_⟩
    · intro k hk
      rw [tempFires_eq, h]
      exact (timer_before_period 60 k (by exact_mod_cast hk)).2
    · rw [tempFires_eq, h]
      have h2 := (timer_at_period 60 (by norm_num)).2
      simpa using h2
    · rw [siIter_temp_timer, h]
      have h2 := (timer_at_period 60 (by norm_num)).1
      simpa using h2

/-- C3 witness: the theorem instantiated at a freshly reset state. -/
theorem C3_witness :
    ipFires env0 sReset 120 = 1 ∧
    tempFires env0 sReset 59 = 0 ∧
    (siIter env0 sReset 120).update_ip_timer = 120 :=
  ⟨((C3_timer_schedule env0 sReset).1 rfl).2.1,
   ((C3_timer_schedule env0 sReset).2 rfl).1 59 (by norm_num),
   ((C3_timer_schedule env0 sReset).1 rfl).2.2⟩

/-- C4: every failure internal to `get_ip_address` or `get_cpu_temp` (the
hostname lookup raising, the thermal file read raising) is absorbed and produces
the probe's defined UNKNOWN-marker sample instead of propagating. -/
theorem C4_probe_error_markers (env : Env) :
    (env.isLinux = true → env.isPi = true → env.hostnameOutput = none →
      get_ip_address env = ("UNKNOWN", RED)) ∧
    ((env.isLinux && env.isPi) = false → env.gethostbyname = none →
      get_ip_address env = ("UNKNOWN", RED)) ∧
    (env.isLinux = true → env.thermalRead = none →
      get_cpu_temp env = ("---", GRAY)) := by
  refine ⟨?_, ?_, ?_⟩
  · intro h1 h2 h3; simp [get_ip_address, h1, h2, h3]
  · intro h1 h2; simp [get_ip_address, h1, h2]
  · intro h1 h2; simp [get_cpu_temp, h1, h2]

/-- C4 witness: the theorem instantiated at an environment where every
external call fails. -/
theorem C4_witness :
    get_ip_address envFail = ("UNKNOWN", RED) ∧
    get_cpu_temp envFail = ("---", GRAY) :=
  ⟨(C4_probe_error_markers envFail).1 rfl rfl rfl,
   (C4_probe_error_markers envFail).2.2 rfl rfl⟩

/-- C5: with the sensor handle absent, `__get_aithre_text_and_color__`
returns ('DISABLED', BLUE) when the aithre_enabled flag is false and
('DISCONNECTED', RED) when it is true, and the two states differ in both
text and color. -/
theorem C5_absent_sensor_states (env : Env) :
    getAithreTextAndColor
        { env with aithre_sensor := none, aithre_enabled := false } =
      ("DISABLED", BLUE) ∧
    getAithreTextAndColor
        { env with aithre_sensor := none, aithre_enabled := true } =
      ("DISCONNECTED", RED) ∧
    ("DISABLED" : String) ≠ "DISCONNECTED" ∧ BLUE ≠ RED := by
  refine ⟨rfl, rfl, by decide, by norm_num [BLUE, RED]⟩

/-- C6 counterexample: after `SystemInfo.__init__` the CPU-temperature
cache holds `None`, not a real sample, refuting the claim that every
per-metric cached value holds a real probed sample after construction. -/
theorem C6_counterexample : (SystemInfo.init env0).cpu_temp = none := rfl

/-- C6 (amended): after `__init__` the IP-address cache holds the sample
probed synchronously during construction, but the CPU-temperature cache is
`None`; both countdowns start at 0, so the first `render` call immediately
probes the CPU temperature and builds the row list from real samples. -/
theorem C6_init_sync (env : Env) :
    (SystemInfo.init env).ip_address = get_ip_address env ∧
    (SystemInfo.init env).cpu_temp = none ∧
    (SystemInfo.init env).update_ip_timer = 0 ∧
    (SystemInfo.init env).update_temp_timer = 0 ∧
    (SystemInfo.renderStep env (SystemInfo.init env)).1.cpu_temp =
      some (get_cpu_temp env) ∧
    (SystemInfo.renderStep env (SystemInfo.init env)).2 =
      some (buildRows env (get_ip_address env) (get_cpu_temp env)) :=
  ⟨rfl, rfl, rfl, rfl, rfl, rfl⟩

/-- C7: a cached IP sample whose text is k space-separated addresses
expands into exactly k rows, one per address, all with the label
`"IP          : "` and all with the sample's color; in the full row list
these rows form one contiguous block. -/
theorem C7_ip_rows (addrs : List (List Char)) (c : Color) (env : Env)
    (ip cpu : String × Color)
    (hne : addrs ≠ []) (hns : ∀ a ∈ addrs, ' ' ∉ a) :
    ipRows (String.mk (joinSpaces addrs), c) =
      addrs.map (fun a => (ipLabel, String.mk a, c)) ∧
    (ipRows (String.mk (joinSpaces addrs), c)).length = addrs.length ∧
    (∀ row ∈ ipRows (String.mk (joinSpaces addrs), c),
      row.1 = ipLabel ∧ row.2.2 = c) ∧
    buildRows env ip cpu =
      [("VERSION     : ", env.version, YELLOW),
       ("DECLINATION : ", env.declination, BLUE),
       ("TRAFFIC     : ", env.traffic_address, BLUE)]
      ++ ipRows ip
      ++ [("AITHRE      : ", (getAithreTextAndColor env).1,
            (getAithreTextAndColor env).2),
          ("HUD CPU     : ", cpu.1, cpu.2),
          ("OWNSHIP     : ", env.ownship, BLUE),
          ("DISPLAY RES : ",
            toString env.fbWidth ++ " x " ++ toString env.fbHeight, BLUE)] := by
  have hsplit : splitSpacesAux (String.mk (joinSpaces addrs)).data [] = addrs :=
    splitSpacesAux_joinSpaces addrs hne hns
  have hmap : ipRows (String.mk (joinSpaces addrs), c) =
      addrs.map (fun a => (ipLabel, String.mk a, c)) := by
    unfold ipRows
    rw [hsplit]
  refine ⟨hmap, by rw [hmap]; simp, ?_, rfl⟩
  intro row hrow
  rw [hmap] at hrow
  obtain ⟨a, _, rfl⟩ := List.mem_map.mp hrow
  exact ⟨rfl, rfl⟩

/-- C7 witness: the theorem instantiated at two concrete addresses. -/
theorem C7_witness :
    (ipRows (String.mk (joinSpaces [("10.0.0.7").data, ("192.168.1.5").data]),
        GREEN)).length = 2 :=
  (C7_ip_rows [("10.0.0.7").data, ("192.168.1.5").data] GREEN env0
    ("10.0.0.7", GREEN) ("55C", GREEN) (by decide) (by decide)).2.1

/-- C8: whenever the sensor is present but `get_battery()` returns `None`
or raises, the combined color of `__get_aithre_text_and_color__` is RED,
whatever the CO reading is. -/
theorem C8_battery_failure_red (env : Env) (s : AithreSensor)
    (h : s.get_battery = .ok none ∨ s.get_battery = .error ()) :
    (getAithreTextAndColor { env with aithre_sensor := some s }).2 = RED := by
  have hbat : (aithreBatterySample s).2 = RED := by
    rcases h with h | h <;> simp [aithreBatterySample, h]
  show combineAithreColor (aithreBatterySample s).2 (aithreCoSample s).2 = RED
  rw [hbat]
  simp [combineAithreColor]

/-- C8 witness: a sensor whose battery getter returns `None` while the CO
getter returns a reading in the safe band still renders RED. -/
theorem C8_witness :
    (getAithreTextAndColor { env0 with aithre_sensor := some sensorBatNone }).2 =
      RED ∧
    (aithreCoSample sensorBatNone).2 = BLUE :=
  ⟨C8_battery_failure_red env0 sensorBatNone (Or.inl rfl),
   by norm_num [aithreCoSample, sensorBatNone, get_aithre_co_color, CoVal.gt,
     CO_SAFE, CO_WARNING]⟩

/-- C9: whenever `local_debug.IS_LINUX` is false, `get_cpu_temp` returns
the placeholder `('---', GRAY)` unconditionally, whatever the thermal
source would read. -/
theorem C9_non_linux_placeholder (env : Env) (h : env.isLinux = false) :
    get_cpu_temp env = ("---", GRAY) := by
  simp [get_cpu_temp, h]

/-- C9 witness: on a non-Linux environment whose thermal source would read
successfully, the placeholder is still returned. -/
theorem C9_witness : get_cpu_temp envNonLinux = ("---", GRAY) :=
  C9_non_linux_placeholder envNonLinux rfl

/-- C10: `__has_been_connected__` starts false, is monotone across render
calls, is set only by a successful numeric CO reading, the OFFLINE text is
drawn only from a state in which the flag is already true, and from the
initial state a history without numeric readings leaves the flag false,
so a `None` or textual CO reading then draws nothing. -/
theorem C10_connection_flag (f : AithreFrame) (s : AithreState)
    (frames : List AithreFrame) :
    Aithre.init.has_been_connected = false ∧
    (s.has_been_connected = true →
      (Aithre.renderStep f s).1.has_been_connected = true) ∧
    ((Aithre.renderStep f s).1.has_been_connected = true →
      s.has_been_connected = true ∨ f.numericFire = true) ∧
    ((Aithre.renderStep f s).2 = some ("OFFLINE", RED) →
      s.has_been_connected = true) ∧
    ((∀ g ∈ frames, g.numericFire = false) →
      (Aithre.run Aithre.init frames).has_been_connected = false) ∧
    ((∀ g ∈ frames, g.numericFire = false) →
      (f.co_level = none ∨ ∃ t, f.co_level = some (.txt t)) →
      (Aithre.renderStep f (Aithre.run Aithre.init frames)).2 = none) := by
  refine ⟨rfl, ?_, ?_, renderStep_offline f s, ?_, ?_⟩
  · intro h
    rcases renderStep_flag f s with he | ⟨he, _⟩
    · rw [he]; exact h
    · rw [he]
  · intro h
    rcases renderStep_flag f s with he | ⟨he, hn⟩
    · left; rw [← he]; exact h
    · right; exact hn
  · intro hall
    exact run_flag_false frames Aithre.init rfl hall
  · intro hall hco
    exact renderStep_silent f _ (run_flag_false frames Aithre.init rfl hall) hco

/-- C10 witness: a textual reading followed by an absent-sensor frame
leaves the flag false, and a further textual reading draws nothing. -/
theorem C10_witness :
    (Aithre.run Aithre.init [frameTxt, frameAbsent]).has_been_connected = false ∧
    (Aithre.renderStep frameTxt
        (Aithre.run Aithre.init [frameTxt, frameAbsent])).2 = none :=
  ⟨(C10_connection_flag frameTxt Aithre.init [frameTxt, frameAbsent]).2.2.2.2.1
      (by decide),
   (C10_connection_flag frameTxt Aithre.init [frameTxt, frameAbsent]).2.2.2.2.2
      (by decide) (Or.inr ⟨"Connecting", rfl⟩)⟩
